import Mathlib

/-!
Verification of the tracker-probing script (test-trackers.py).

The script probes BitTorrent tracker endpoints: HTTP(S) trackers get a BEP 3
announce request whose reply body is checked for a bencoded shape; UDP
trackers get a BEP 15 connect handshake whose 16-byte reply is validated
field by field.  A thread pool runs one probe per tracker, collects the
valid ones with their response times, filters them by a response-time
threshold and sorts them ascending by time.

The network and the Python standard library are the environment: a probe's
interaction with them is modelled by an explicit event (the datagram that
arrived, the HTTP response or the transport error), and each Python
function becomes a Lean function of that event.  Byte strings are lists of
naturals (each in 0..255 at real call sites), wall-clock times are
rationals, and each early-return branch of a probe is tagged with the
error kind of the design taxonomy corresponding to that branch's log call.
-/

/-- Error taxonomy: one tag per distinct failure branch of the script
(each branch has its own log message or exception handler). -/
inductive ErrorKind where
  | Unparseable
  | Skipped
  | UnsupportedScheme
  | ConnectionError
  | Timeout
  | RequestError
  | InvalidResponse
  | SocketError
  | ProtocolMismatch
  | InternalError
deriving DecidableEq, Repr

/-- Result of probing one endpoint: the `(is_valid, response_time_ms)`
tuple returned by the probers, with the failure branch tagged. -/
structure ProbeOutcome where
  valid : Bool
  responseTimeMs : Option Rat
  errorKind : Option ErrorKind
deriving DecidableEq, Repr

/-- Big-endian integer value of a byte string, as computed by
`struct.unpack` with format letters I (on a 4-byte slice) and Q (on an
8-byte slice). -/
def beNat (bs : List Nat) : Nat :=
  bs.foldl (fun acc b => acc * 256 + b) 0

/-- What the network delivered to a UDP probe while it waited. -/
inductive UdpNetEvent where
  | timeout
  | sockError
  | reply (datagram : List Nat)
deriving DecidableEq, Repr

/-- POSIX `recvfrom(bufsize)` on a datagram socket delivers at most
`bufsize` bytes of the arriving datagram; excess bytes are discarded. -/
def recvfromTruncate (bufsize : Nat) (datagram : List Nat) : List Nat :=
  datagram.take bufsize

/-- Validation phase of `is_valid_udp_endpoint` (after the request with the
given `transaction_id` was sent): the reply datagram is read with
`recvfrom(16)`, rejected when the delivered buffer is shorter than 16
bytes, unpacked as `!IIQ` (action, transaction id, connection id, all
big-endian), and rejected when the action is not 0 or the transaction id
differs from the one sent; otherwise the probe is valid with the elapsed
time.  Timeout and socket errors are the two exception handlers. -/
def is_valid_udp_endpoint_reply (transaction_id : Nat) (ev : UdpNetEvent)
    (elapsedMs : Rat) : ProbeOutcome :=
  match ev with
  | .timeout => ⟨false, none, some .Timeout⟩
  | .sockError => ⟨false, none, some .SocketError⟩
  | .reply datagram =>
    let response := recvfromTruncate 16 datagram
    if response.length < 16 then ⟨false, none, some .InvalidResponse⟩
    else
      let resp_action := beNat (response.take 4)
      let resp_transaction_id := beNat ((response.drop 4).take 4)
      if resp_action ≠ 0 then ⟨false, none, some .ProtocolMismatch⟩
      else if resp_transaction_id ≠ transaction_id then
        ⟨false, none, some .ProtocolMismatch⟩
      else ⟨true, some elapsedMs, none⟩

/-- What the transport layer did for one HTTP(S) probe: one constructor
per `except` clause of `is_valid_http_tracker`, plus the delivered
response (body bytes and status code). -/
inductive HttpNetEvent where
  | connError
  | timeoutErr
  | requestError
  | response (content : List Nat) (statusCode : Nat)
deriving DecidableEq, Repr

/-- The bencoded-shape check of `is_valid_http_tracker`:
`len(content) > 2 and content.startswith(b'd') and content.endswith(b'e')`
(byte 100 is `d`, byte 101 is `e`). -/
def is_bencoded (content : List Nat) : Bool :=
  decide (content.length > 2) && (content.head? == some 100)
    && (content.getLast? == some 101)

/-- Body of `is_valid_http_tracker` from the point the request is issued:
on a delivered response the elapsed time is always recorded and validity
is exactly `is_bencoded` of the body (the status code is never consulted);
each transport exception yields `(False, None)` tagged with its branch. -/
def is_valid_http_tracker (ev : HttpNetEvent) (elapsedMs : Rat) : ProbeOutcome :=
  match ev with
  | .connError => ⟨false, none, some .ConnectionError⟩
  | .timeoutErr => ⟨false, none, some .Timeout⟩
  | .requestError => ⟨false, none, some .RequestError⟩
  | .response content _statusCode =>
    if is_bencoded content then ⟨true, some elapsedMs, none⟩
    else ⟨false, some elapsedMs, some .InvalidResponse⟩

/-- Configuration: trackers to skip because they hang or misbehave. -/
def SKIP_TRACKERS : List String := ["udp://tracker.theoks.net:6969/announce"]

/-- Configuration: response-time threshold in milliseconds (`None`
disables filtering). -/
def MAX_RESPONSE_TIME_MS : Option Rat := some 750

/-- Configuration: number of pool workers. -/
def MAX_WORKERS : Nat := 50

/-- Which branch of `test_tracker` handles a given tracker string: the
denylist return, the UDP prober call, the WebSocket skip return, or the
HTTP prober call (the `else` branch). -/
inductive Route where
  | skipped
  | udpProbe
  | wssSkip
  | httpProbe
deriving DecidableEq, Repr

/-- Python `str.startswith`: a prefix test on the character sequence. -/
def startswith (p s : String) : Bool := p.data.isPrefixOf s.data

/-- Branch selection of `test_tracker`: denylist membership first, then
`startswith("udp://")`, then `startswith("wss://")`, and everything else
falls through to `is_valid_http_tracker`. -/
def test_tracker_route (tracker : String) : Route :=
  if tracker ∈ SKIP_TRACKERS then .skipped
  else if startswith "udp://" tracker then .udpProbe
  else if startswith "wss://" tracker then .wssSkip
  else .httpProbe

/-- The `(tracker, is_valid, response_time)` triple returned by
`test_tracker`, with the two probers passed in as functions so that their
non-invocation on the skip branches is visible in the statement. -/
def test_tracker (udpProber httpProber : String → Bool × Option Rat)
    (tracker : String) : String × Bool × Option Rat :=
  if tracker ∈ SKIP_TRACKERS then (tracker, false, none)
  else if startswith "udp://" tracker then
    let r := udpProber tracker
    (tracker, r.1, r.2)
  else if startswith "wss://" tracker then (tracker, false, none)
  else
    let r := httpProber tracker
    (tracker, r.1, r.2)

/-- Loop body of `process_trackers_concurrent`: the futures are consumed
in completion order; `future.result()` either re-raises the probe's
exception (caught, logged, only the progress bar advanced) or yields the
triple, which is appended to `valid_trackers` exactly when
`is_valid and response_time is not None`. -/
def process_trackers_concurrent
    (result : String → Except String (String × Bool × Option Rat))
    (completionOrder : List String) : List (String × Rat) :=
  completionOrder.foldl (fun valid_trackers fut =>
    match result fut with
    | .error _ => valid_trackers
    | .ok (tracker, is_valid, response_time) =>
      if is_valid then
        match response_time with
        | some r => valid_trackers ++ [(tracker, r)]
        | none => valid_trackers
      else valid_trackers) []

/-- The threshold filter of `main`: when `MAX_RESPONSE_TIME_MS` is set,
keep exactly the pairs with `r <= MAX_RESPONSE_TIME_MS`. -/
def filterByResponseTime (maxMs : Option Rat) (l : List (String × Rat)) :
    List (String × Rat) :=
  match maxMs with
  | none => l
  | some m => l.filter (fun tr => decide (tr.2 ≤ m))

/-- Comparison used by `valid_trackers.sort(key=lambda x: x[1])`. -/
def byTime (a b : String × Rat) : Prop := a.2 ≤ b.2

instance : DecidableRel byTime := fun a b => inferInstanceAs (Decidable (a.2 ≤ b.2))

instance : IsTotal (String × Rat) byTime := ⟨fun a b => le_total a.2 b.2⟩

instance : IsTrans (String × Rat) byTime := ⟨fun _ _ _ h h2 => le_trans h h2⟩

/-- The final sort of `main`: Python `list.sort(key=...)` is a stable sort
by the key, so it computes the same function as a stable insertion sort
ordered by response time. -/
def pySortByTime (l : List (String × Rat)) : List (String × Rat) :=
  List.insertionSort byTime l

/-- Netloc scan of `urllib.parse.urlparse`: the authority of a URL runs
from after the `//` up to the first `/`, `?` or `#`. -/
def splitNetloc : List Char → List Char
  | [] => []
  | c :: rest =>
    if c = '/' ∨ c = '?' ∨ c = '#' then [] else c :: splitNetloc rest

/-- Netloc of the URL strings `is_valid_udp_endpoint` receives: for a
`udp://`-prefixed string the netloc scan runs after the scheme; a string
with no `//` after its scheme (such as the empty string or a bare
`udp://` whose remainder is empty) has an empty netloc. -/
def udpNetloc (url : List Char) : List Char :=
  match url with
  | 'u' :: 'd' :: 'p' :: ':' :: '/' :: '/' :: rest => splitNetloc rest
  | _ => []

/-- The `rpartition('@')` step of urllib's hostname extraction: the host
info is the netloc text after the last `@` (the whole netloc when there
is none). -/
def afterLastAt (cs : List Char) : List Char :=
  (cs.reverse.takeWhile (fun c => c ≠ '@')).reverse

/-- Decimal value of a digit string, as `int(s, 10)` computes it on
all-digit input. -/
def digitsToNat (cs : List Char) : Nat :=
  cs.foldl (fun acc c => acc * 10 + (c.toNat - 48)) 0

/-- The `hostname`/`port` properties of urllib's parse result, for the
non-bracketed netlocs a UDP tracker URL carries: host info is split at its
first `:`; the part before it, lowercased, is the hostname (`None` when
empty); the part after it is the port — absent or empty gives `None`,
an all-digit string in 0..65535 gives its value, and anything else makes
the `port` property raise `ValueError` (the `.error` result). -/
def urlparseHostPort (url : List Char) :
    Except Unit (Option (List Char) × Option Nat) :=
  let hostinfo := afterLastAt (udpNetloc url)
  let hostPart := hostinfo.takeWhile (fun c => c ≠ ':')
  let hostname :=
    if hostPart = [] then none else some (hostPart.map Char.toLower)
  match hostinfo.dropWhile (fun c => c ≠ ':') with
  | [] => .ok (hostname, none)
  | _ :: portChars =>
    if portChars = [] then .ok (hostname, none)
    else if portChars.all Char.isDigit then
      if digitsToNat portChars ≤ 65535 then
        .ok (hostname, some (digitsToNat portChars))
      else .error ()
    else .error ()

/-- Result of the parsing phase of `is_valid_udp_endpoint`: either the
host/port pair that will be probed, or the early `(False, None)` return
for a hostless or unparseable URL. -/
inductive UdpParseResult where
  | unparseable
  | endpoint (host : List Char) (port : Nat)
deriving DecidableEq, Repr

/-- Parsing phase of `is_valid_udp_endpoint` (its `try` block before the
socket exists): a `ValueError` from the `port` property is caught and
returns `(False, None)`, a missing hostname returns `(False, None)`, and
a missing port defaults to 6969. -/
def is_valid_udp_endpoint_parse (url : List Char) : UdpParseResult :=
  match urlparseHostPort url with
  | .error _ => .unparseable
  | .ok (none, _) => .unparseable
  | .ok (some h, none) => .endpoint h 6969
  | .ok (some h, some p) => .endpoint h p

/-- All of `is_valid_udp_endpoint`: the parse phase runs first and its
failures return before any socket is created, so the outcome of an
unparseable URL cannot depend on the network event. -/
def is_valid_udp_endpoint (url : List Char) (transaction_id : Nat)
    (ev : UdpNetEvent) (elapsedMs : Rat) : ProbeOutcome :=
  match is_valid_udp_endpoint_parse url with
  | .unparseable => ⟨false, none, some .Unparseable⟩
  | .endpoint _ _ => is_valid_udp_endpoint_reply transaction_id ev elapsedMs

lemma http_response_valid_eq (content : List Nat) (s : Nat) (t : Rat) :
    (is_valid_http_tracker (.response content s) t).valid = is_bencoded content := by
  by_cases h : is_bencoded content <;> simp [is_valid_http_tracker, h]

lemma is_bencoded_iff (content : List Nat) :
    is_bencoded content = true ↔
      2 < content.length ∧ content.head? = some 100 ∧ content.getLast? = some 101 := by
  simp [is_bencoded, and_assoc]

/-- Claim C2: an HTTP(S) probe that receives a response is valid exactly
when the body is longer than 2 bytes, starts with byte `d` (100) and ends
with byte `e` (101), independent of the HTTP status code; the bodies
`de`, `abc` and the empty body are invalid, and every body of the form
`d...e` with length above 2 is valid. -/
theorem C2_http_validity (content mid : List Nat) (status status2 : Nat) (t t2 : Rat) :
    ((is_valid_http_tracker (.response content status) t).valid = true ↔
      2 < content.length ∧ content.head? = some 100 ∧ content.getLast? = some 101)
    ∧ (is_valid_http_tracker (.response content status) t).valid
        = (is_valid_http_tracker (.response content status2) t2).valid
    ∧ (is_valid_http_tracker (.response [100, 101] status) t).valid = false
    ∧ (is_valid_http_tracker (.response [97, 98, 99] status) t).valid = false
    ∧ (is_valid_http_tracker (.response [] status) t).valid = false
    ∧ (mid ≠ [] →
        (is_valid_http_tracker (.response ((100 :: mid) ++ [101]) status) t).valid = true) := by
  refine ⟨?_, ?_, ?_, ?_, ?_, ?_⟩
  · rw [http_response_valid_eq, is_bencoded_iff]
  · rw [http_response_valid_eq, http_response_valid_eq]
  · rw [http_response_valid_eq]
    decide
  · rw [http_response_valid_eq]
    decide
  · rw [http_response_valid_eq]
    decide
  · intro hmid
    have hpos : 0 < mid.length := List.length_pos.mpr hmid
    rw [http_response_valid_eq, is_bencoded_iff]
    refine ⟨?_, ?_, ?_⟩
    · simp only [List.length_append, List.length_cons, List.length_nil]
      omega
    · rw [List.cons_append]
      rfl
    · rw [List.getLast?_append_of_ne_nil]
      · rfl
      · simp

lemma udp_reply_valid_iff (txid : Nat) (d : List Nat) (t : Rat) :
    (is_valid_udp_endpoint_reply txid (.reply d) t).valid = true ↔
      16 ≤ d.length ∧ beNat (d.take 4) = 0 ∧ beNat ((d.drop 4).take 4) = txid := by
  have ht4 : (d.take 16).take 4 = d.take 4 := by rw [List.take_take]; norm_num
  have hd4 : ((d.take 16).drop 4).take 4 = (d.drop 4).take 4 := by
    rw [List.drop_take, List.take_take]; norm_num
  simp only [is_valid_udp_endpoint_reply, recvfromTruncate, ht4, hd4, List.length_take]
  by_cases h1 : min 16 d.length < 16
  · have h2 : ¬ 16 ≤ d.length := by omega
    simp [h1, h2]
  · by_cases h2 : beNat (d.take 4) = 0
    · by_cases h3 : beNat ((d.drop 4).take 4) = txid
      · simp [h1, h2, h3]
        omega
      · simp [h1, h2, h3]
    · simp [h1, h2]

lemma udp_reply_errorKind_short (txid : Nat) (d : List Nat) (t : Rat) (h : d.length < 16) :
    (is_valid_udp_endpoint_reply txid (.reply d) t).errorKind
      = some ErrorKind.InvalidResponse := by
  simp [is_valid_udp_endpoint_reply, recvfromTruncate, h]

lemma udp_reply_errorKind_mismatch (txid : Nat) (d : List Nat) (t : Rat)
    (hlen : 16 ≤ d.length)
    (h : beNat (d.take 4) ≠ 0 ∨ beNat ((d.drop 4).take 4) ≠ txid) :
    (is_valid_udp_endpoint_reply txid (.reply d) t).errorKind
      = some ErrorKind.ProtocolMismatch := by
  have hnl : ¬ (d.length < 16) := by omega
  have ht4 : (d.take 16).take 4 = d.take 4 := by rw [List.take_take]; norm_num
  have hd4 : ((d.take 16).drop 4).take 4 = (d.drop 4).take 4 := by
    rw [List.drop_take, List.take_take]; norm_num
  simp only [is_valid_udp_endpoint_reply, recvfromTruncate, ht4, hd4]
  rcases h with h | h
  · simp [hnl, h]
  · by_cases h2 : beNat (d.take 4) = 0
    · simp [hnl, h2, h]
    · simp [hnl, h2]

/-- Claim C1, counterexample: the claim requires the reply to be exactly
16 bytes for validity, but `recvfrom(16)` truncates the reply datagram to
its first 16 bytes, so a 17-byte datagram whose first 16 bytes carry
action 0 and the sent transaction id is accepted as valid. -/
theorem C1_counterexample :
    (is_valid_udp_endpoint_reply 5
      (.reply [0, 0, 0, 0, 0, 0, 0, 5, 1, 2, 3, 4, 5, 6, 7, 8, 99]) 40).valid = true
    ∧ ([0, 0, 0, 0, 0, 0, 0, 5, 1, 2, 3, 4, 5, 6, 7, 8, 99] : List Nat).length ≠ 16 := by
  decide

/-- Claim C1 as amended: a UDP probe outcome is valid iff a reply
datagram was received whose length is at least 16 and whose first 16
bytes, read big-endian, carry action 0 and the transaction id that was
sent (bytes beyond the 16th are discarded by `recvfrom(16)` and never
checked); a delivered reply shorter than 16 bytes is tagged
InvalidResponse, and a long-enough reply with a wrong action or a
mismatched transaction id is tagged ProtocolMismatch. -/
theorem C1_amended_udp_validity (transaction_id : Nat) (ev : UdpNetEvent) (t : Rat) :
    ((is_valid_udp_endpoint_reply transaction_id ev t).valid = true ↔
      ∃ d, ev = .reply d ∧ 16 ≤ d.length ∧ beNat (d.take 4) = 0 ∧
        beNat ((d.drop 4).take 4) = transaction_id)
    ∧ (∀ d, ev = .reply d → d.length < 16 →
        (is_valid_udp_endpoint_reply transaction_id ev t).errorKind
          = some ErrorKind.InvalidResponse)
    ∧ (∀ d, ev = .reply d → 16 ≤ d.length →
        (beNat (d.take 4) ≠ 0 ∨ beNat ((d.drop 4).take 4) ≠ transaction_id) →
        (is_valid_udp_endpoint_reply transaction_id ev t).errorKind
          = some ErrorKind.ProtocolMismatch) := by
  refine ⟨?_, ?_, ?_⟩
  · cases ev with
    | timeout => simp [is_valid_udp_endpoint_reply]
    | sockError => simp [is_valid_udp_endpoint_reply]
    | reply d =>
      rw [udp_reply_valid_iff]
      constructor
      · intro h
        exact ⟨d, rfl, h⟩
      · rintro ⟨d2, hd2, h⟩
        cases hd2
        exact h
  · rintro d rfl h
    exact udp_reply_errorKind_short _ _ _ h
  · rintro d rfl hlen h
    exact udp_reply_errorKind_mismatch _ _ _ hlen h

/-- Claim C1, witness: a correct 16-byte connect reply for transaction
id 5 is accepted. -/
theorem C1_witness :
    (is_valid_udp_endpoint_reply 5
      (.reply [0, 0, 0, 0, 0, 0, 0, 5, 1, 2, 3, 4, 5, 6, 7, 8]) 40).valid = true :=
  (C1_amended_udp_validity 5 _ 40).1.mpr
    ⟨[0, 0, 0, 0, 0, 0, 0, 5, 1, 2, 3, 4, 5, 6, 7, 8], rfl, by decide, by decide, by decide⟩

/-- Claim C2, witness: the body `d2e` on a 404 response is valid, and
the body `de` on a 200 response is not. -/
theorem C2_witness :
    ((is_valid_http_tracker (.response [100, 50, 101] 404) 12).valid = true)
    ∧ ((is_valid_http_tracker (.response [100, 101] 200) 12).valid = false) := by
  constructor
  · exact (C2_http_validity [100, 50, 101] [50] 404 200 12 12).1.mpr (by decide)
  · exact (C2_http_validity [100, 50, 101] [50] 200 200 12 12).2.2.1

lemma udp_reply_outcome_cases (txid : Nat) (ev : UdpNetEvent) (t : Rat) :
    is_valid_udp_endpoint_reply txid ev t = ⟨true, some t, none⟩
    ∨ ∃ k, is_valid_udp_endpoint_reply txid ev t = ⟨false, none, some k⟩ := by
  cases ev with
  | timeout => exact .inr ⟨_, rfl⟩
  | sockError => exact .inr ⟨_, rfl⟩
  | reply d =>
    simp only [is_valid_udp_endpoint_reply, recvfromTruncate]
    split
    · exact .inr ⟨_, rfl⟩
    · split
      · exact .inr ⟨_, rfl⟩
      · split
        · exact .inr ⟨_, rfl⟩
        · exact .inl rfl

/-- Claim C4, counterexample: an HTTP probe that receives a
non-bencoded body returns `(False, response_time_ms)` — the response
time is recorded even though the outcome is invalid, so responseTimeMs
is not populated only when valid. -/
theorem C4_counterexample :
    (is_valid_http_tracker (.response [97, 98, 99] 200) 12).valid = false
    ∧ (is_valid_http_tracker (.response [97, 98, 99] 200) 12).responseTimeMs = some 12 := by
  decide

/-- Claim C4 as amended: a UDP probe records a response time iff it is
valid, and its errorKind is populated iff it is invalid; an HTTP probe
populates errorKind iff it is invalid, but records a response time iff a
response was delivered at all — including the invalid-body case —
while transport failures (connection error, timeout, request error)
record none. -/
theorem C4_amended_time_presence (transaction_id : Nat) (uev : UdpNetEvent)
    (hev : HttpNetEvent) (t : Rat) :
    ((is_valid_udp_endpoint_reply transaction_id uev t).responseTimeMs.isSome = true
        ↔ (is_valid_udp_endpoint_reply transaction_id uev t).valid = true)
    ∧ ((is_valid_http_tracker hev t).responseTimeMs.isSome = true
        ↔ ∃ c s, hev = .response c s)
    ∧ ((is_valid_udp_endpoint_reply transaction_id uev t).errorKind.isSome = true
        ↔ (is_valid_udp_endpoint_reply transaction_id uev t).valid = false)
    ∧ ((is_valid_http_tracker hev t).errorKind.isSome = true
        ↔ (is_valid_http_tracker hev t).valid = false) := by
  refine ⟨?_, ?_, ?_, ?_⟩
  · rcases udp_reply_outcome_cases transaction_id uev t with h | ⟨k, h⟩ <;> simp [h]
  · cases hev with
    | connError => simp [is_valid_http_tracker]
    | timeoutErr => simp [is_valid_http_tracker]
    | requestError => simp [is_valid_http_tracker]
    | response c s =>
      have h : (is_valid_http_tracker (.response c s) t).responseTimeMs = some t := by
        simp only [is_valid_http_tracker]
        split <;> rfl
      simp [h]
  · rcases udp_reply_outcome_cases transaction_id uev t with h | ⟨k, h⟩ <;> simp [h]
  · cases hev with
    | connError => simp [is_valid_http_tracker]
    | timeoutErr => simp [is_valid_http_tracker]
    | requestError => simp [is_valid_http_tracker]
    | response c s =>
      simp only [is_valid_http_tracker]
      split <;> simp

/-- Claim C4, witness: an HTTP probe that received a response (here
with body `abc`) has a recorded response time. -/
theorem C4_witness :
    (is_valid_http_tracker (.response [97, 98, 99] 200) 12).responseTimeMs.isSome = true :=
  (C4_amended_time_presence 0 .timeout (.response [97, 98, 99] 200) 12).2.1.mpr
    ⟨[97, 98, 99], 200, rfl⟩

/-- Claim C5, counterexample: a URI with scheme `ftp` — neither udp,
http, https nor wss — is not short-circuited: `test_tracker` falls
through its final `else` into the HTTP prober, whose answer becomes the
outcome, so a network call is made for unsupported schemes other than
wss. -/
theorem C5_counterexample :
    test_tracker_route "ftp://example/announce" = Route.httpProbe
    ∧ startswith "http://" "ftp://example/announce" = false
    ∧ startswith "https://" "ftp://example/announce" = false
    ∧ startswith "udp://" "ftp://example/announce" = false
    ∧ test_tracker (fun _ => (false, none)) (fun _ => (true, some 1))
        "ftp://example/announce" = ("ftp://example/announce", true, some 1) := by
  refine ⟨by decide, by decide, by decide, by decide, rfl⟩

/-- Claim C5 as amended: for endpoints not on the denylist,
`udp://`-prefixed URIs go to the UDP prober; `wss://`-prefixed URIs
immediately yield `(tracker, False, None)` with no prober invoked (the
outcome is independent of both probers); and every other URI — whether
http, https, or any other scheme — goes to the HTTP prober. -/
theorem C5_amended_routing (tracker : String) (hskip : tracker ∉ SKIP_TRACKERS) :
    (startswith "udp://" tracker = true → test_tracker_route tracker = .udpProbe)
    ∧ (startswith "udp://" tracker = false → startswith "wss://" tracker = true →
        test_tracker_route tracker = .wssSkip
        ∧ ∀ u h, test_tracker u h tracker = (tracker, false, none))
    ∧ (startswith "udp://" tracker = false → startswith "wss://" tracker = false →
        test_tracker_route tracker = .httpProbe
        ∧ ∀ u h, test_tracker u h tracker = (tracker, (h tracker).1, (h tracker).2)) := by
  refine ⟨?_, ?_, ?_⟩ <;> intros <;>
    simp_all [test_tracker_route, test_tracker]

/-- Claim C5, witness: a wss URI takes the WebSocket-skip branch. -/
theorem C5_witness :
    test_tracker_route "wss://a.example/announce" = Route.wssSkip :=
  ((C5_amended_routing "wss://a.example/announce" (by decide)).2.1
    (by decide) (by decide)).1

/-- Claim C7: with the threshold unset no outcome is dropped, and with
threshold 750 the filter keeps exactly the outcomes whose response time
is at most 750 — strictly greater is excluded, equal is kept. -/
theorem C7_threshold_filter (l : List (String × Rat)) (e : String × Rat) :
    filterByResponseTime none l = l
    ∧ (e ∈ filterByResponseTime (some 750) l ↔ e ∈ l ∧ e.2 ≤ 750)
    ∧ (750 < e.2 → e ∉ filterByResponseTime (some 750) l)
    ∧ (e ∈ l → e.2 = 750 → e ∈ filterByResponseTime (some 750) l) := by
  have hiff : e ∈ filterByResponseTime (some 750) l ↔ e ∈ l ∧ e.2 ≤ 750 := by
    simp [filterByResponseTime, List.mem_filter]
  refine ⟨rfl, hiff, ?_, ?_⟩
  · intro hgt hmem
    exact absurd (hiff.mp hmem).2 (not_le.mpr hgt)
  · intro hl heq
    exact hiff.mpr ⟨hl, le_of_eq heq⟩

/-- Claim C7, witness: at threshold 750 an outcome of exactly 750 ms
is kept and one of 800 ms is dropped. -/
theorem C7_witness :
    ("a", (750 : Rat)) ∈ filterByResponseTime (some 750) [("a", 750), ("b", 800)]
    ∧ ("b", (800 : Rat)) ∉ filterByResponseTime (some 750) [("a", 750), ("b", 800)] :=
  ⟨(C7_threshold_filter [("a", 750), ("b", 800)] ("a", 750)).2.2.2 (by decide) (by decide),
   (C7_threshold_filter [("a", 750), ("b", 800)] ("b", 800)).2.2.1 (by decide)⟩

/-- Claim C8, counterexample: two permutations of the same set of
valid outcomes — two endpoints tied at 5 ms — sort to different final
orders, because `sort(key=lambda x: x[1])` compares response times only
and Python's stable sort keeps ties in list (completion) order; no URI
tie-break exists, so the output is not a function of the outcome set. -/
theorem C8_counterexample :
    List.Perm [("b", (5 : Rat)), ("a", 5)] [("a", 5), ("b", 5)]
    ∧ pySortByTime [("b", 5), ("a", 5)] ≠ pySortByTime [("a", 5), ("b", 5)] := by
  decide

/-- Claim C8 as amended: the final list is a permutation of its input
sorted ascending by response time; ties keep the completion order the
input had (the sort is stable), so the output is a deterministic
function of the input sequence, not of its multiset. -/
theorem C8_amended_sorted (l : List (String × Rat)) :
    (pySortByTime l).Perm l ∧ List.Sorted byTime (pySortByTime l) :=
  ⟨List.perm_insertionSort byTime l, List.sorted_insertionSort byTime l⟩

/-- Claim C9: an endpoint on the denylist takes the first branch of
`test_tracker`, before any scheme test, and its outcome
`(tracker, False, None)` is independent of both probers — neither
prober is invoked and no network call is made. -/
theorem C9_denylist_skip (tracker : String) (h : tracker ∈ SKIP_TRACKERS)
    (udpProber httpProber : String → Bool × Option Rat) :
    test_tracker_route tracker = Route.skipped
    ∧ test_tracker udpProber httpProber tracker = (tracker, false, none) := by
  simp [test_tracker_route, test_tracker, h]

/-- Claim C9, witness: the one configured denylist entry (a udp URI
that would otherwise reach the UDP prober) is skipped even when both
probers would report success. -/
theorem C9_witness :
    test_tracker_route "udp://tracker.theoks.net:6969/announce" = Route.skipped
    ∧ test_tracker (fun _ => (true, some 1)) (fun _ => (true, some 1))
        "udp://tracker.theoks.net:6969/announce"
        = ("udp://tracker.theoks.net:6969/announce", false, none) :=
  C9_denylist_skip "udp://tracker.theoks.net:6969/announce" (by decide) _ _

lemma process_foldl_general
    (result : String → Except String (String × Bool × Option Rat))
    (order : List String) :
    ∀ acc : List (String × Rat),
      order.foldl (fun valid_trackers fut =>
        match result fut with
        | .error _ => valid_trackers
        | .ok (tracker, is_valid, response_time) =>
          if is_valid then
            match response_time with
            | some r => valid_trackers ++ [(tracker, r)]
            | none => valid_trackers
          else valid_trackers) acc
      = acc ++ order.filterMap (fun fut =>
          match result fut with
          | .ok (tracker, true, some r) => some (tracker, r)
          | _ => none) := by
  induction order with
  | nil => intro acc; simp
  | cons x xs ih =>
    intro acc
    rw [List.foldl_cons, List.filterMap_cons]
    rcases hx : result x with e | ⟨tr, v, rt⟩
    · simpa [hx] using ih acc
    · cases v with
      | false =>
        cases rt with
        | none => simpa [hx] using ih acc
        | some r => simpa [hx] using ih acc
      | true =>
        cases rt with
        | none => simpa [hx] using ih acc
        | some r =>
          simp only [hx, if_true]
          rw [ih (acc ++ [(tr, r)])]
          simp

lemma process_trackers_concurrent_eq_filterMap
    (result : String → Except String (String × Bool × Option Rat))
    (order : List String) :
    process_trackers_concurrent result order
      = order.filterMap (fun fut =>
          match result fut with
          | .ok (tracker, true, some r) => some (tracker, r)
          | _ => none) := by
  unfold process_trackers_concurrent
  simpa using process_foldl_general result order []

/-- Claim C3, counterexample: `process_trackers_concurrent` does not
return one outcome per input endpoint — an endpoint whose probe reports
invalid contributes nothing to the returned list, and an endpoint whose
probe raises is logged and dropped rather than converted into an
InternalError outcome, so one submitted endpoint can yield an empty
result list. -/
theorem C3_counterexample :
    process_trackers_concurrent (fun t => .ok (t, false, none)) ["udp://a"] = []
    ∧ process_trackers_concurrent (fun _ => .error "RuntimeError") ["udp://b"] = [] :=
  ⟨rfl, rfl⟩

/-- Claim C3 as amended: over any completion order of the submitted
futures, `process_trackers_concurrent` returns exactly one entry, in
completion order, for each endpoint whose probe returned valid with a
response time; an endpoint whose probe fails, reports invalid, or raises
contributes no entry and has no effect on the entries of the other
endpoints (each future is consumed exactly once and an exception from
one is caught at the loop body). -/
theorem C3_amended_coordinator
    (result : String → Except String (String × Bool × Option Rat))
    (order : List String) :
    process_trackers_concurrent result order
      = order.filterMap (fun fut =>
          match result fut with
          | .ok (tracker, true, some r) => some (tracker, r)
          | _ => none) :=
  process_trackers_concurrent_eq_filterMap result order

/-- Claim C10: every entry of the final ranked list — after
collection, threshold filtering and sorting — pairs a tracker URI with
a numeric response time and originates from a submitted endpoint whose
probe returned valid with that time; invalid, skipped or raising probes
can never appear in the output. -/
theorem C10_output_valid_only
    (result : String → Except String (String × Bool × Option Rat))
    (order : List String) (maxMs : Option Rat) (uri : String) (rt : Rat)
    (h : (uri, rt) ∈ pySortByTime (filterByResponseTime maxMs
          (process_trackers_concurrent result order))) :
    ∃ fut ∈ order, result fut = .ok (uri, true, some rt) := by
  have h1 : (uri, rt) ∈ filterByResponseTime maxMs
      (process_trackers_concurrent result order) :=
    (List.perm_insertionSort byTime _).mem_iff.mp h
  have h2 : (uri, rt) ∈ process_trackers_concurrent result order := by
    cases maxMs with
    | none => exact h1
    | some m => exact (List.mem_filter.mp h1).1
  rw [process_trackers_concurrent_eq_filterMap] at h2
  rcases List.mem_filterMap.mp h2 with ⟨fut, hmem, hg⟩
  refine ⟨fut, hmem, ?_⟩
  rcases hfut : result fut with e | ⟨tr, v, rtt⟩ <;> rw [hfut] at hg
  · exact absurd hg (by simp)
  · cases v with
    | false => exact absurd hg (by simp)
    | true =>
      cases rtt with
      | none => exact absurd hg (by simp)
      | some r =>
        simp only [Option.some.injEq, Prod.mk.injEq] at hg
        rw [hg.1, hg.2]

/-- Claim C10, witness: a single valid 40 ms endpoint appearing in the
final output is traced back to its valid probe result. -/
theorem C10_witness :
    ∃ fut ∈ ["udp://u"],
      (fun t => (Except.ok (t, true, some (40 : Rat)) :
        Except String (String × Bool × Option Rat))) fut = .ok ("udp://u", true, some 40) :=
  C10_output_valid_only (fun t => .ok (t, true, some 40)) ["udp://u"]
    MAX_RESPONSE_TIME_MS "udp://u" 40 (by decide)

lemma splitNetloc_append (host rest : List Char)
    (h : ∀ c ∈ host, ¬(c = '/' ∨ c = '?' ∨ c = '#')) :
    splitNetloc (host ++ '/' :: rest) = host := by
  induction host with
  | nil => simp [splitNetloc]
  | cons c cs ih =>
    have hc := h c (List.mem_cons_self c cs)
    simp only [List.cons_append, splitNetloc, if_neg hc, List.append_eq]
    rw [ih (fun x hx => h x (List.mem_cons_of_mem c hx))]

lemma afterLastAt_eq_self (cs : List Char) (h : ∀ c ∈ cs, c ≠ '@') :
    afterLastAt cs = cs := by
  have h2 : cs.reverse.takeWhile (fun c => c ≠ '@') = cs.reverse := by
    rw [List.takeWhile_eq_self_iff]
    intro x hx
    simpa using h x (List.mem_reverse.mp hx)
  simp only [afterLastAt, h2, List.reverse_reverse]

lemma urlparseHostPort_no_port (host rest : List Char) (hne : host ≠ [])
    (hchars : ∀ c ∈ host, c ≠ ':' ∧ c ≠ '@' ∧ c ≠ '/' ∧ c ≠ '?' ∧ c ≠ '#') :
    urlparseHostPort (('u' :: 'd' :: 'p' :: ':' :: '/' :: '/' :: host) ++ '/' :: rest)
      = .ok (some (host.map Char.toLower), none) := by
  have hnet : udpNetloc (('u' :: 'd' :: 'p' :: ':' :: '/' :: '/' :: host) ++ '/' :: rest)
      = host := by
    show splitNetloc (host ++ '/' :: rest) = host
    refine splitNetloc_append host rest (fun c hc => ?_)
    rcases hchars c hc with ⟨_, _, h3, h4, h5⟩
    rintro (hh | hh | hh)
    · exact h3 hh
    · exact h4 hh
    · exact h5 hh
  have hat : afterLastAt host = host :=
    afterLastAt_eq_self host (fun c hc => (hchars c hc).2.1)
  have htw : host.takeWhile (fun c => c ≠ ':') = host := by
    rw [List.takeWhile_eq_self_iff]
    intro x hx
    simpa using (hchars x hx).1
  have hdw : host.dropWhile (fun c => c ≠ ':') = [] := by
    rw [List.dropWhile_eq_nil_iff]
    intro x hx
    simpa using (hchars x hx).1
  simp only [urlparseHostPort, hnet, hat, htw, hdw, if_neg hne]

/-- Claim C6: UDP endpoint parsing is total — every URL yields either
an endpoint or the Unparseable variant, never an exception (the
`ValueError` of the port property is caught); the empty string and the
hostless `udp://` are Unparseable; an unparseable URL's outcome is fixed
before any socket work; and a well-formed host with no port defaults to
port 6969 with the hostname lowercased. -/
theorem C6_parse_udp (url host : List Char) (hne : host ≠ [])
    (hchars : ∀ c ∈ host, c ≠ ':' ∧ c ≠ '@' ∧ c ≠ '/' ∧ c ≠ '?' ∧ c ≠ '#') :
    is_valid_udp_endpoint_parse "".data = .unparseable
    ∧ is_valid_udp_endpoint_parse "udp://".data = .unparseable
    ∧ (∀ u, is_valid_udp_endpoint_parse u = .unparseable
        ∨ ∃ hh pp, is_valid_udp_endpoint_parse u = .endpoint hh pp)
    ∧ (∀ txid ev t, is_valid_udp_endpoint_parse url = .unparseable →
        is_valid_udp_endpoint url txid ev t
          = ⟨false, none, some ErrorKind.Unparseable⟩)
    ∧ is_valid_udp_endpoint_parse
        (('u' :: 'd' :: 'p' :: ':' :: '/' :: '/' :: host) ++ '/' :: "announce".data)
        = .endpoint (host.map Char.toLower) 6969 := by
  refine ⟨by decide, by decide, ?_, ?_, ?_⟩
  · intro u
    cases hu : is_valid_udp_endpoint_parse u with
    | unparseable => exact .inl rfl
    | endpoint hh pp => exact .inr ⟨hh, pp, rfl⟩
  · intro txid ev t hu
    simp [is_valid_udp_endpoint, hu]
  · simp only [is_valid_udp_endpoint_parse,
      urlparseHostPort_no_port host _ hne hchars]

/-- Claim C6, witness: `udp://host.example/announce` parses to host
`host.example` with default port 6969. -/
theorem C6_witness :
    is_valid_udp_endpoint_parse
        (('u' :: 'd' :: 'p' :: ':' :: '/' :: '/' :: "host.example".data)
          ++ '/' :: "announce".data)
      = .endpoint ("host.example".data.map Char.toLower) 6969 :=
  (C6_parse_udp "".data "host.example".data (by decide) (by decide)).2.2.2.2
